import Mathlib

/-!
Verification development for the TippyBlenderLink Blender add-on.

The development shallowly embeds the retry and caching logic of the add-on:

* utils/firebase_client.py : FirebaseClient.test_connection,
  FirebaseClient.upload_to_storage, FirebaseClient.create_component,
  FirebaseClient.create_entity, FirebaseClient.upload_with_retry.
* utils/http_client.py : BanterUploader.check_server_status.
* panels/ui_panel.py : TIPPY_PT_upload_panel.get_firebase_status and
  TIPPY_OT_refresh_firebase_status.execute (the availability cache).
* operators/export_upload.py : the size gate and upload orchestration of
  TIPPY_OT_export_upload.execute.
* config.py : MAX_FILE_SIZE_MB.

Modelling conventions:

* The outcome of each outbound HTTP request is an oracle value of type
  HttpOutcome: a status code together with the message extracted from a JSON
  error body when extraction succeeds, or a transport-level failure
  (requests.exceptions.Timeout, requests.exceptions.ConnectionError), or any
  other raised exception with its message.  The Python functions convert all
  of these into returned tuples; the embedding mirrors those conversions.
* Binary payloads are lists of bytes (List Nat).  The SHA-256 hex digest used
  for content addressing is an explicit function parameter sha256Hex, since
  only its functional dependence on the payload matters to the claims.
* Random draws of secrets.randbelow are oracle inputs: each retry attempt
  reads its draw from an environment function of type Nat to AttemptEnv.
* time.sleep and time.time are modelled by recording slept durations in a
  trace and by passing the current time as a Nat argument.  Timestamps are
  Nat; the freshness test now - checked_at < 10 under truncated subtraction
  agrees with the Python float test for all orderings of the timestamps.
* Numeric transform data (Python floats that are merely stored, never
  branched on) is modelled with Int components.
-/

namespace TippyBlenderLink

/-- Configuration of a FirebaseClient together with the preference fields the
availability cache reads: apiKey, storageBucket, databaseURL, projectId from
the config dictionary, and the space identifier passed separately. -/
structure FirebaseConfig where
  apiKey : String
  storageBucket : String
  databaseURL : String
  projectId : String
  spaceId : String
deriving Repr, DecidableEq

/-- Oracle outcome of one outbound HTTP request, as observed by the Python
code: an HTTP response with its status code and the error message extracted
from a JSON error body when that extraction succeeds, a timeout, a connection
error, or any other raised exception carrying its rendered message. -/
inductive HttpOutcome where
  | status (code : Nat) (errorBody : Option String)
  | timeout
  | connError
  | exn (msg : String)
deriving Repr, DecidableEq

/-- Content-addressed storage path derived in upload_to_storage:
storage_path is the string glbs/ followed by the SHA-256 hex digest of the
payload bytes and the extension .glb. -/
def storagePathOf (sha256Hex : List Nat → String) (glbData : List Nat) : String :=
  "glbs/" ++ sha256Hex glbData ++ ".glb"

/-- Download URL returned by upload_to_storage on success. -/
def downloadUrlOf (cfg : FirebaseConfig) (storagePath : String) : String :=
  "https://firebasestorage.googleapis.com/v0/b/" ++ cfg.storageBucket ++
    "/o/" ++ (storagePath.replace "/" "%2F") ++ "?alt=media"

/-- Embedding of FirebaseClient.upload_to_storage.  Returns the Python
triple (success, url_or_error, storage_path). -/
def upload_to_storage (cfg : FirebaseConfig) (sha256Hex : List Nat → String)
    (glbData : List Nat) (o : HttpOutcome) : Bool × String × String :=
  if cfg.storageBucket = "" then (false, "Storage bucket not configured", "")
  else
    let storagePath := storagePathOf sha256Hex glbData
    match o with
    | .status code body =>
      if code = 200 then (true, downloadUrlOf cfg storagePath, storagePath)
      else
        match body with
        | some m => (false, "Storage upload failed: " ++ m, "")
        | none => (false, "Storage upload failed: HTTP " ++ Nat.repr code, "")
    | .timeout => (false, "Storage upload timeout", "")
    | .connError => (false, "Cannot connect to Firebase Storage", "")
    | .exn m => (false, "Storage upload error: " ++ m, "")

/-- Embedding of FirebaseClient.create_component.  Returns the Python pair
(success, message).  The generic exception handler of the Python function
also catches timeouts and connection errors, so these are rendered through
the Component creation error branch. -/
def create_component (cfg : FirebaseConfig) (componentId : String)
    (o : HttpOutcome) : Bool × String :=
  if cfg.databaseURL = "" ∨ cfg.spaceId = "" then
    (false, "Database URL or space ID not configured")
  else
    match o with
    | .status code body =>
      if code = 200 then (true, "Component " ++ componentId ++ " created successfully")
      else
        match body with
        | some m => (false, "Failed to create component: " ++ m)
        | none => (false, "Failed to create component: HTTP " ++ Nat.repr code)
    | .timeout => (false, "Component creation error: Timeout")
    | .connError => (false, "Component creation error: ConnectionError")
    | .exn m => (false, "Component creation error: " ++ m)

/-- Three-component numeric vector (position or scale). -/
structure Vec3 where
  x : Int
  y : Int
  z : Int
deriving Repr, DecidableEq

/-- Four-component numeric vector (quaternion rotation). -/
structure Vec4 where
  x : Int
  y : Int
  z : Int
  w : Int
deriving Repr, DecidableEq

/-- Structured placement data passed to create_entity. -/
structure Transform where
  position : Vec3
  rotation : Vec4
  scale : Vec3
deriving Repr, DecidableEq

/-- Default transform substituted by create_entity when none is supplied:
identity position and rotation, unit scale. -/
def defaultTransform : Transform :=
  ⟨⟨0, 0, 0⟩, ⟨0, 0, 0, 1⟩, ⟨1, 1, 1⟩⟩

/-- Entity document written by create_entity under the __meta key. -/
structure EntityMeta where
  active : Bool
  componentId : String
  layer : Nat
  localPosition : Vec3
  localRotation : Vec4
  localScale : Vec3
  position : Vec3
  rotation : Vec4
  uuid : Nat
deriving Repr, DecidableEq

/-- The entity document create_entity assembles from the component id, the
optional transform and the freshly drawn uuid. -/
def entityMetaOf (componentId : String) (t : Option Transform) (uuid : Nat) : EntityMeta :=
  let tr := t.getD defaultTransform
  ⟨true, componentId, 0, tr.position, tr.rotation, tr.scale, tr.position, tr.rotation, uuid⟩

/-- Embedding of FirebaseClient.create_entity.  Returns the Python pair
(success, message).  The uuid draw of secrets.randbelow is an oracle input. -/
def create_entity (cfg : FirebaseConfig) (meshName componentId : String)
    (transform : Option Transform) (uuid : Nat) (o : HttpOutcome) : Bool × String :=
  if cfg.databaseURL = "" ∨ cfg.spaceId = "" then
    (false, "Database URL or space ID not configured")
  else
    match o with
    | .status code body =>
      if code = 200 then (true, "Entity " ++ meshName ++ " created successfully")
      else
        match body with
        | some m => (false, "Failed to create entity: " ++ m)
        | none => (false, "Failed to create entity: HTTP " ++ Nat.repr code)
    | .timeout => (false, "Entity creation error: Timeout")
    | .connError => (false, "Entity creation error: ConnectionError")
    | .exn m => (false, "Entity creation error: " ++ m)

/-- Component identifier minted per attempt in upload_with_retry from a draw
of secrets.randbelow: the string GLTF_ followed by the decimal rendering of
the draw. -/
def componentIdOf (r : Nat) : String :=
  "GLTF_" ++ Nat.repr r

/-- Oracle data consumed by one iteration of the retry loop: the random draw
for the component id, the uuid draw inside create_entity, and the HTTP
outcomes of the storage upload, the component write and the entity write. -/
structure AttemptEnv where
  rand : Nat
  uuid : Nat
  storage : HttpOutcome
  component : HttpOutcome
  entity : HttpOutcome

/-- Observable side effects of a call to upload_with_retry: how many times
each of the three backend writes was attempted, and the list of backoff
delays passed to time.sleep, in order. -/
structure Trace where
  storageAttempts : Nat
  componentAttempts : Nat
  entityAttempts : Nat
  sleeps : List Nat
deriving Repr, DecidableEq

/-- Result dictionary of upload_with_retry: either success carrying the
storage url, the component id and the mesh name, or failure carrying the
error string. -/
inductive UploadResult where
  | success (storageUrl componentId meshName : String)
  | failure (error : String)
deriving Repr, DecidableEq

/-- One execution of the retry loop of FirebaseClient.upload_with_retry
starting at the given 0-based attempt index with the given number of
remaining iterations.  The loop guard attempt < max_retries - 1 of the
source is equivalent to the remaining count after the current iteration
being nonzero, which is how it is rendered here.  The entry point below
starts at attempt 0 with max_retries iterations remaining. -/
def upload_from (cfg : FirebaseConfig) (sha256Hex : List Nat → String)
    (glbData : List Nat) (meshName : String) (transform : Option Transform)
    (env : Nat → AttemptEnv) : Nat → Nat → UploadResult × Trace
  | _, 0 => (.failure "Maximum retries exceeded", ⟨0, 0, 0, []⟩)
  | attempt, r + 1 =>
    let e := env attempt
    let componentId := componentIdOf e.rand
    let s1 := upload_to_storage cfg sha256Hex glbData e.storage
    if s1.1 then
      let s2 := create_component cfg componentId e.component
      if s2.1 then
        let s3 := create_entity cfg meshName componentId transform e.uuid e.entity
        if s3.1 then
          (.success s1.2.1 componentId meshName, ⟨1, 1, 1, []⟩)
        else
          (.failure s3.2, ⟨1, 1, 1, []⟩)
      else
        (.failure s2.2, ⟨1, 1, 0, []⟩)
    else
      if r = 0 then
        (.failure s1.2.1, ⟨1, 0, 0, []⟩)
      else
        let rest := upload_from cfg sha256Hex glbData meshName transform env (attempt + 1) r
        (rest.1, ⟨rest.2.storageAttempts + 1, rest.2.componentAttempts,
          rest.2.entityAttempts, 2 ^ attempt :: rest.2.sleeps⟩)

/-- Embedding of FirebaseClient.upload_with_retry.  The max_retries argument
is an Int as in Python; the loop for attempt in range(max_retries) runs
toNat max_retries iterations. -/
def upload_with_retry (cfg : FirebaseConfig) (sha256Hex : List Nat → String)
    (glbData : List Nat) (meshName : String) (transform : Option Transform)
    (env : Nat → AttemptEnv) (maxRetries : Int) : UploadResult × Trace :=
  upload_from cfg sha256Hex glbData meshName transform env 0 maxRetries.toNat

/-- Embedding of FirebaseClient.test_connection.  Returns the Python pair
(success, message). -/
def test_connection (cfg : FirebaseConfig) (o : HttpOutcome) : Bool × String :=
  if cfg.databaseURL = "" ∨ cfg.apiKey = "" then
    (false, "Firebase configuration incomplete")
  else
    match o with
    | .status code _ =>
      if code = 200 then (true, "Firebase connection successful")
      else if code = 401 then (false, "Firebase authentication failed - check API key")
      else (false, "Firebase connection failed: HTTP " ++ Nat.repr code)
    | .timeout => (false, "Firebase connection timeout")
    | .connError => (false, "Cannot connect to Firebase - check database URL")
    | .exn m => (false, "Firebase connection error: " ++ m)

/-- Embedding of BanterUploader.check_server_status: true exactly when the
GET against the server root returns a status code below 500; any raised
error yields false. -/
def check_server_status (o : HttpOutcome) : Bool :=
  match o with
  | .status code _ => decide (code < 500)
  | _ => false

/-- The availability cache of TIPPY_PT_upload_panel: a dictionary from cache
key to the pair (reachable, checked_at). -/
abbrev Cache := List (String × Bool × Nat)

/-- Dictionary lookup on the availability cache. -/
def cacheLookup : Cache → String → Option (Bool × Nat)
  | [], _ => none
  | (k, r, t) :: rest, key => if k = key then some (r, t) else cacheLookup rest key

/-- Dictionary deletion on the availability cache. -/
def cacheErase : Cache → String → Cache
  | [], _ => []
  | (k, r, t) :: rest, key =>
    if k = key then cacheErase rest key else (k, r, t) :: cacheErase rest key

/-- Dictionary assignment on the availability cache: any existing binding of
the key is replaced. -/
def cacheInsert (c : Cache) (key : String) (reachable : Bool) (checkedAt : Nat) : Cache :=
  (key, reachable, checkedAt) :: cacheErase c key

/-- Cache key used by get_firebase_status: the project id and the space id
joined by an underscore. -/
def firebaseCacheKey (cfg : FirebaseConfig) : String :=
  cfg.projectId ++ "_" ++ cfg.spaceId

/-- The live branch of get_firebase_status, executed on a cache miss or an
expired entry: when the database URL or the API key is missing the failure
is cached without any network request; otherwise test_connection issues one
probe and its result is cached.  The third component counts the live network
probes performed (the requests.get calls issued). -/
def firebase_live_check (cache : Cache) (cfg : FirebaseConfig) (key : String)
    (now : Nat) (o : HttpOutcome) : Bool × Cache × Nat :=
  if cfg.databaseURL = "" ∨ cfg.apiKey = "" then
    (false, cacheInsert cache key false now, 0)
  else
    let r := (test_connection cfg o).1
    (r, cacheInsert cache key r now, 1)

/-- Embedding of TIPPY_PT_upload_panel.get_firebase_status.  Returns the
reported status, the cache after the call, and the number of live network
probes performed. -/
def get_firebase_status (cache : Cache) (cfg : FirebaseConfig) (now : Nat)
    (o : HttpOutcome) : Bool × Cache × Nat :=
  match cacheLookup cache (firebaseCacheKey cfg) with
  | some (r, t) =>
    if now - t < 10 then (r, cache, 0)
    else firebase_live_check cache cfg (firebaseCacheKey cfg) now o
  | none => firebase_live_check cache cfg (firebaseCacheKey cfg) now o

/-- Embedding of the cache manipulation of
TIPPY_OT_refresh_firebase_status.execute: the entry for the current cache
key is deleted. -/
def refresh_firebase_status (cache : Cache) (cfg : FirebaseConfig) : Cache :=
  cacheErase cache (firebaseCacheKey cfg)

/-- Size ceiling from config.py. -/
def MAX_FILE_SIZE_MB : Nat := 40

/-- Outcome of the execute method of the export operator: either CANCELLED
with the reported error, or FINISHED with the storage url and component id. -/
inductive ExecOutcome where
  | cancelled (msg : String)
  | finished (storageUrl componentId : String)
deriving Repr, DecidableEq

/-- Zero-effect trace: no backend write attempted, nothing slept. -/
def emptyTrace : Trace := ⟨0, 0, 0, []⟩

/-- Embedding of the upload stage of TIPPY_OT_export_upload.execute, from
the file size gate onwards.  The Python comparison len(glb_data)/(1024*1024)
> MAX_FILE_SIZE_MB over floats is exact for any realisable payload length,
because division by a power of two is exact in binary floating point; it is
rendered as the equivalent integer comparison.  The configuration checks and
the retry call follow the size gate exactly as in the source. -/
def execute_export_upload (cfg : FirebaseConfig) (sha256Hex : List Nat → String)
    (glbData : List Nat) (meshName : String) (transform : Option Transform)
    (env : Nat → AttemptEnv) (maxRetries : Int) : ExecOutcome × Trace :=
  if MAX_FILE_SIZE_MB * 1024 * 1024 < glbData.length then
    (.cancelled "File too large, maximum is 40MB", emptyTrace)
  else if cfg.databaseURL = "" ∨ cfg.storageBucket = "" then
    (.cancelled "Firebase configuration incomplete. Please configure in addon preferences.", emptyTrace)
  else if cfg.spaceId = "" then
    (.cancelled "No Space ID configured. Please set Space ID in addon preferences.", emptyTrace)
  else
    match upload_with_retry cfg sha256Hex glbData meshName transform env maxRetries with
    | (.success u c _, t) => (.finished u c, t)
    | (.failure e, t) => (.cancelled ("Upload failed: " ++ e), t)

/-! ### Auxiliary definitions for the proofs -/

/-- Decimal digit characters of a numeral, the list that Nat.toDigitsCore
with base 10 produces when given sufficient fuel.  Used to reason about the
decimal rendering inside componentIdOf. -/
def repChars (n : Nat) : List Char :=
  if _h : n < 10 then [Nat.digitChar n]
  else repChars (n / 10) ++ [Nat.digitChar (n % 10)]
decreasing_by exact Nat.div_lt_self (by omega) (by omega)


/-- Result produced by the retry loop body once the storage upload of the
given attempt has succeeded: the component write runs once and, when it
succeeds, the entity write runs once. -/
def uploadOutcomeAt (cfg : FirebaseConfig) (sha256Hex : List Nat → String)
    (glbData : List Nat) (meshName : String) (transform : Option Transform)
    (env : Nat → AttemptEnv) (i : Nat) : UploadResult :=
  let e := env i
  let componentId := componentIdOf e.rand
  let s1 := upload_to_storage cfg sha256Hex glbData e.storage
  let s2 := create_component cfg componentId e.component
  if s2.1 then
    let s3 := create_entity cfg meshName componentId transform e.uuid e.entity
    if s3.1 then UploadResult.success s1.2.1 componentId meshName
    else UploadResult.failure s3.2
  else UploadResult.failure s2.2


/-- A result dictionary is well formed when a failure carries a nonempty
human-readable reason. -/
def reasonNonempty : UploadResult → Prop
  | UploadResult.success _ _ _ => True
  | UploadResult.failure e => e ≠ ""


/-! ### Concrete fixtures used by witnesses and counterexamples -/

/-- A fully populated configuration. -/
def sampleConfig : FirebaseConfig :=
  ⟨"apiKey", "bucket", "https://db", "proj", "space"⟩

/-- A fixed hash oracle; only its functional behaviour matters. -/
def sampleSha : List Nat → String := fun _ => "0a1b2c"

/-- A successful HTTP response. -/
def okOutcome : HttpOutcome := HttpOutcome.status 200 none

/-- Backend behaviour where every storage upload times out. -/
def transportAllEnv : Nat → AttemptEnv :=
  fun i => ⟨i, i, HttpOutcome.timeout, okOutcome, okOutcome⟩

/-- Backend behaviour where the storage upload succeeds and the component
write is rejected with HTTP 403. -/
def componentRejectEnv : Nat → AttemptEnv :=
  fun _ => ⟨0, 0, okOutcome, HttpOutcome.status 403 none, okOutcome⟩

/-- Backend behaviour where every call succeeds and every random draw for
the component id yields 7. -/
def happyEnv : Nat → AttemptEnv := fun _ => ⟨7, 11, okOutcome, okOutcome, okOutcome⟩

/-- Backend behaviour where every call succeeds and every random draw for
the component id yields 9. -/
def happyEnvAlt : Nat → AttemptEnv := fun _ => ⟨9, 11, okOutcome, okOutcome, okOutcome⟩

/-- Backend behaviour where the storage upload times out on the first two
attempts and everything succeeds from the third attempt on. -/
def failTwiceEnv : Nat → AttemptEnv :=
  fun i => if i < 2 then ⟨i, i, HttpOutcome.timeout, okOutcome, okOutcome⟩
    else ⟨7, 11, okOutcome, okOutcome, okOutcome⟩

/-! ### General helper lemmas -/

theorem str_append_ne_empty (a b : String) (h : a.length ≠ 0) : a ++ b ≠ "" := by
  intro hc
  have h2 := congrArg String.length hc
  rw [String.length_append] at h2
  have h3 : ("" : String).length = 0 := rfl
  omega

theorem repChars_small (n : Nat) (h : n < 10) : repChars n = [Nat.digitChar n] := by
  rw [repChars]; simp [h]

theorem repChars_large (n : Nat) (h : ¬ n < 10) :
    repChars n = repChars (n / 10) ++ [Nat.digitChar (n % 10)] := by
  rw [repChars]; simp [h]

theorem repChars_ne_nil (n : Nat) : repChars n ≠ [] := by
  by_cases h : n < 10
  · rw [repChars_small n h]; simp
  · rw [repChars_large n h]; simp

theorem toDigitsCore_eq_repChars :
    ∀ (fuel n : Nat) (ds : List Char), n < fuel →
      Nat.toDigitsCore 10 fuel n ds = repChars n ++ ds := by
  intro fuel
  induction fuel with
  | zero => intro n ds h; omega
  | succ f ih =>
    intro n ds h
    rw [Nat.toDigitsCore]
    by_cases h10 : n < 10
    · have hz : n / 10 = 0 := Nat.div_eq_of_lt h10
      simp only [hz, if_pos rfl]
      rw [repChars_small n h10, Nat.mod_eq_of_lt h10]
      rfl
    · have h1 : 1 ≤ n / 10 := (Nat.le_div_iff_mul_le (by omega)).mpr (by omega)
      have hz : ¬ n / 10 = 0 := by omega
      simp only [if_neg hz]
      have hlt : n / 10 < f := by
        have hd : n / 10 < n := Nat.div_lt_self (by omega) (by omega)
        omega
      rw [ih (n / 10) (Nat.digitChar (n % 10) :: ds) hlt, repChars_large n h10,
        List.append_assoc]
      rfl

theorem repr_eq_repChars (n : Nat) : Nat.repr n = (repChars n).asString := by
  unfold Nat.repr Nat.toDigits
  rw [toDigitsCore_eq_repChars (n + 1) n [] (by omega)]
  simp

theorem digitChar_inj (a b : Nat) (ha : a < 10) (hb : b < 10)
    (h : Nat.digitChar a = Nat.digitChar b) : a = b := by
  interval_cases a <;> interval_cases b <;> first | rfl | (exfalso; revert h; decide)

theorem repChars_length_pos (n : Nat) : 0 < (repChars n).length :=
  List.length_pos.mpr (repChars_ne_nil n)

theorem repChars_inj : ∀ (m n : Nat), repChars m = repChars n → m = n := by
  intro m
  induction m using Nat.strong_induction_on with
  | _ m ih =>
    intro n h
    by_cases hm : m < 10
    · by_cases hn : n < 10
      · rw [repChars_small m hm, repChars_small n hn] at h
        exact digitChar_inj m n hm hn (by injection h)
      · rw [repChars_small m hm, repChars_large n hn] at h
        have hlen := congrArg List.length h
        simp only [List.length_append, List.length_singleton] at hlen
        have hpos := repChars_length_pos (n / 10)
        omega
    · by_cases hn : n < 10
      · rw [repChars_large m hm, repChars_small n hn] at h
        have hlen := congrArg List.length h
        simp only [List.length_append, List.length_singleton] at hlen
        have hpos := repChars_length_pos (m / 10)
        omega
      · rw [repChars_large m hm, repChars_large n hn] at h
        have hp := List.append_inj' h (by simp)
        have hdiv : m / 10 = n / 10 :=
          ih (m / 10) (Nat.div_lt_self (by omega) (by omega)) (n / 10) hp.1
        have hmod : m % 10 = n % 10 := by
          have h2 := hp.2
          have hc : Nat.digitChar (m % 10) = Nat.digitChar (n % 10) := by
            injection h2
          exact digitChar_inj _ _ (Nat.mod_lt _ (by omega)) (Nat.mod_lt _ (by omega)) hc
        omega

theorem repr_inj (m n : Nat) (h : Nat.repr m = Nat.repr n) : m = n := by
  rw [repr_eq_repChars, repr_eq_repChars] at h
  apply repChars_inj
  have hd := congrArg String.data h
  simpa [List.asString] using hd

theorem componentIdOf_inj (a b : Nat) (h : componentIdOf a = componentIdOf b) :
    a = b := by
  unfold componentIdOf at h
  have hd := congrArg String.data h
  simp only [String.data_append] at hd
  exact repr_inj a b (String.ext (List.append_cancel_left hd))


/-! ### Behaviour of the storage upload step -/

theorem upload_to_storage_of_transport (cfg : FirebaseConfig)
    (sha : List Nat → String) (data : List Nat) (o : HttpOutcome)
    (hb : cfg.storageBucket ≠ "")
    (h : o = HttpOutcome.timeout ∨ o = HttpOutcome.connError) :
    (upload_to_storage cfg sha data o).1 = false := by
  rcases h with h | h <;> subst h <;> simp [upload_to_storage, hb]

theorem upload_to_storage_ok_url (cfg : FirebaseConfig)
    (sha : List Nat → String) (data : List Nat) (o : HttpOutcome)
    (h : (upload_to_storage cfg sha data o).1 = true) :
    (upload_to_storage cfg sha data o).2.1 =
      downloadUrlOf cfg (storagePathOf sha data) := by
  unfold upload_to_storage at h ⊢
  by_cases hb : cfg.storageBucket = ""
  · simp [hb] at h
  · simp only [if_neg hb] at h ⊢
    cases o with
    | status code body =>
      by_cases hc : code = 200
      · simp [hc]
      · exfalso
        cases body with
        | some m => simp [hc] at h
        | none => simp [hc] at h
    | timeout => simp at h
    | connError => simp at h
    | exn m => simp at h

theorem upload_to_storage_true_iff (cfg : FirebaseConfig)
    (sha : List Nat → String) (data : List Nat) (o : HttpOutcome) :
    (upload_to_storage cfg sha data o).1 = true ↔
      cfg.storageBucket ≠ "" ∧ ∃ b, o = HttpOutcome.status 200 b := by
  constructor
  · intro h
    unfold upload_to_storage at h
    by_cases hb : cfg.storageBucket = ""
    · simp [hb] at h
    · refine ⟨hb, ?_⟩
      cases o with
      | status code body =>
        by_cases hc : code = 200
        · exact ⟨body, by rw [hc]⟩
        · exfalso; cases body with
          | some m => simp [hb, hc] at h
          | none => simp [hb, hc] at h
      | timeout => simp [hb] at h
      | connError => simp [hb] at h
      | exn m => simp [hb] at h
  · rintro ⟨hb, b, rfl⟩
    simp [upload_to_storage, hb]


theorem upload_from_all_fail (cfg : FirebaseConfig) (sha : List Nat → String)
    (data : List Nat) (name : String) (tr : Option Transform)
    (env : Nat → AttemptEnv) :
    ∀ (r a : Nat), 1 ≤ r →
      (∀ i, i < r → (upload_to_storage cfg sha data (env (a + i)).storage).1 = false) →
      upload_from cfg sha data name tr env a r =
        (.failure (upload_to_storage cfg sha data (env (a + (r - 1))).storage).2.1,
         ⟨r, 0, 0, (List.range (r - 1)).map (fun j => 2 ^ (a + j))⟩) := by
  intro r
  induction r with
  | zero => intro a h1 _; omega
  | succ r ih =>
    intro a _ hf
    have hf0 : (upload_to_storage cfg sha data (env a).storage).1 = false := by
      have := hf 0 (by omega)
      simpa using this
    rw [upload_from]
    simp only [hf0, Bool.false_eq_true, if_false]
    cases r with
    | zero =>
      simp
    | succ r2 =>
      have hne : ¬ (r2 + 1 = 0) := by omega
      simp only [if_neg hne]
      rw [ih (a + 1) (by omega) ?hyp]
      case hyp =>
        intro i hi
        have := hf (i + 1) (by omega)
        have he : a + (i + 1) = a + 1 + i := by omega
        rwa [he] at this
      have hidx : a + 1 + (r2 + 1 - 1) = a + (r2 + 1 + 1 - 1) := by omega
      rw [hidx]
      refine Prod.ext rfl ?_
      simp only [Trace.mk.injEq]
      refine ⟨trivial, trivial, trivial, ?_⟩
      have hr : r2 + 1 + 1 - 1 = (r2 + 1 - 1) + 1 := by omega
      rw [hr, List.range_succ_eq_map, List.map_cons, List.map_map]
      refine congrArg₂ List.cons (by simp) ?_
      apply List.map_congr_left
      intro j _
      show 2 ^ (a + 1 + j) = 2 ^ (a + Nat.succ j)
      congr 1
      omega


theorem upload_from_success_at (cfg : FirebaseConfig) (sha : List Nat → String)
    (data : List Nat) (name : String) (tr : Option Transform)
    (env : Nat → AttemptEnv) :
    ∀ (k a r : Nat), 1 ≤ k → k ≤ r →
      (∀ i, i < k - 1 → (upload_to_storage cfg sha data (env (a + i)).storage).1 = false) →
      (upload_to_storage cfg sha data (env (a + (k - 1))).storage).1 = true →
      upload_from cfg sha data name tr env a r =
        (uploadOutcomeAt cfg sha data name tr env (a + (k - 1)),
         ⟨k, 1,
          if (create_component cfg (componentIdOf (env (a + (k - 1))).rand)
                (env (a + (k - 1))).component).1 then 1 else 0,
          (List.range (k - 1)).map (fun j => 2 ^ (a + j))⟩) := by
  intro k
  induction k with
  | zero => intro a r h1 _ _ _; omega
  | succ k ih =>
    intro a r _ hkr hf hs
    cases r with
    | zero => omega
    | succ r =>
      cases k with
      | zero =>
        have hs0 : (upload_to_storage cfg sha data (env a).storage).1 = true := by
          simpa using hs
        rw [upload_from]
        simp only [hs0, if_true]
        by_cases h2 : (create_component cfg (componentIdOf (env a).rand) (env a).component).1
        · by_cases h3 : (create_entity cfg name (componentIdOf (env a).rand) tr
              (env a).uuid (env a).entity).1
          · simp [uploadOutcomeAt, h2, h3]
          · simp [uploadOutcomeAt, h2, h3]
        · simp [uploadOutcomeAt, h2]
      | succ k2 =>
        have hf0 : (upload_to_storage cfg sha data (env a).storage).1 = false := by
          have := hf 0 (by omega)
          simpa using this
        rw [upload_from]
        simp only [hf0, Bool.false_eq_true, if_false]
        have hne : ¬ (r = 0) := by omega
        simp only [if_neg hne]
        cases r with
        | zero => omega
        | succ r2 =>
          rw [ih (a + 1) (r2 + 1) (by omega) (by omega) ?hyp ?hok]
          case hyp =>
            intro i hi
            have := hf (i + 1) (by omega)
            have he : a + (i + 1) = a + 1 + i := by omega
            rwa [he] at this
          case hok =>
            have he : a + (k2 + 1 + 1 - 1) = a + 1 + (k2 + 1 - 1) := by omega
            rwa [he] at hs
          have hidx : a + 1 + (k2 + 1 - 1) = a + (k2 + 1 + 1 - 1) := by omega
          rw [hidx]
          refine Prod.ext rfl ?_
          simp only [Trace.mk.injEq]
          refine ⟨trivial, trivial, trivial, ?_⟩
          have hr : k2 + 1 + 1 - 1 = (k2 + 1 - 1) + 1 := by omega
      
          rw [hr, List.range_succ_eq_map, List.map_cons, List.map_map]
          refine congrArg₂ List.cons (by simp) ?_
          apply List.map_congr_left
          intro j _
          show 2 ^ (a + 1 + j) = 2 ^ (a + Nat.succ j)
          congr 1
          omega

theorem upload_from_sleeps (cfg : FirebaseConfig) (sha : List Nat → String)
    (data : List Nat) (name : String) (tr : Option Transform)
    (env : Nat → AttemptEnv) :
    ∀ (r a k d : Nat),
      ((upload_from cfg sha data name tr env a r).2.sleeps).get? k = some d →
      d = 2 ^ (a + k) := by
  intro r
  induction r with
  | zero =>
    intro a k d h
    rw [upload_from] at h
    simp at h
  | succ r ih =>
    intro a k d h
    rw [upload_from] at h
    by_cases hs1 : (upload_to_storage cfg sha data (env a).storage).1
    · simp only [hs1, if_true] at h
      by_cases h2 : (create_component cfg (componentIdOf (env a).rand) (env a).component).1
      · by_cases h3 : (create_entity cfg name (componentIdOf (env a).rand) tr
            (env a).uuid (env a).entity).1
        · simp [h2, h3] at h
        · simp [h2, h3] at h
      · simp [h2] at h
    · simp only [Bool.not_eq_true] at hs1
      simp only [hs1, Bool.false_eq_true, if_false] at h
      by_cases hr : r = 0
      · simp [hr] at h
      · simp only [if_neg hr] at h
        cases k with
        | zero =>
          simp only [List.get?_cons_zero, Option.some.injEq] at h
          subst h
          simp
        | succ k2 =>
          simp only [List.get?_cons_succ] at h
          have := ih (a + 1) k2 d h
          rw [this]
          congr 1
          omega


theorem upload_from_success_shape (cfg : FirebaseConfig) (sha : List Nat → String)
    (data : List Nat) (name : String) (tr : Option Transform)
    (env : Nat → AttemptEnv) :
    ∀ (r a : Nat) (u c n : String),
      (upload_from cfg sha data name tr env a r).1 = UploadResult.success u c n →
      u = downloadUrlOf cfg (storagePathOf sha data) ∧ n = name ∧
        ∃ i, c = componentIdOf (env i).rand := by
  intro r
  induction r with
  | zero =>
    intro a u c n h
    rw [upload_from] at h
    simp at h
  | succ r ih =>
    intro a u c n h
    rw [upload_from] at h
    by_cases hs1 : (upload_to_storage cfg sha data (env a).storage).1
    · simp only [hs1, if_true] at h
      by_cases h2 : (create_component cfg (componentIdOf (env a).rand) (env a).component).1
      · by_cases h3 : (create_entity cfg name (componentIdOf (env a).rand) tr
            (env a).uuid (env a).entity).1
        · simp only [h2, h3, if_true] at h
          have hinj := (UploadResult.success.injEq _ _ _ _ _ _).mp h.symm
          refine ⟨?_, hinj.2.2, ⟨a, hinj.2.1⟩⟩
          rw [hinj.1]
          exact upload_to_storage_ok_url cfg sha data (env a).storage hs1
        · simp [h2, h3] at h
      · simp [h2] at h
    · simp only [Bool.not_eq_true] at hs1
      simp only [hs1, Bool.false_eq_true, if_false] at h
      by_cases hr : r = 0
      · simp [hr] at h
      · simp only [if_neg hr] at h
        exact ih (a + 1) u c n h

theorem upload_to_storage_err_ne (cfg : FirebaseConfig) (sha : List Nat → String)
    (data : List Nat) (o : HttpOutcome)
    (h : (upload_to_storage cfg sha data o).1 = false) :
    (upload_to_storage cfg sha data o).2.1 ≠ "" := by
  cases o with
  | status code body =>
    simp only [upload_to_storage] at h ⊢
    by_cases hb : cfg.storageBucket = ""
    · rw [if_pos hb]
      show ("Storage bucket not configured" : String) ≠ ""
      decide
    · rw [if_neg hb] at h ⊢
      by_cases hc : code = 200
      · rw [if_pos hc] at h
        simp at h
      · rw [if_neg hc] at h ⊢
        cases body with
        | some m =>
          show ("Storage upload failed: " ++ m) ≠ ""
          exact str_append_ne_empty _ _ (by decide)
        | none =>
          show ("Storage upload failed: HTTP " ++ Nat.repr code) ≠ ""
          exact str_append_ne_empty _ _ (by decide)
  | timeout =>
    simp only [upload_to_storage] at h ⊢
    by_cases hb : cfg.storageBucket = ""
    · rw [if_pos hb]
      show ("Storage bucket not configured" : String) ≠ ""
      decide
    · rw [if_neg hb]
      show ("Storage upload timeout" : String) ≠ ""
      decide
  | connError =>
    simp only [upload_to_storage] at h ⊢
    by_cases hb : cfg.storageBucket = ""
    · rw [if_pos hb]
      show ("Storage bucket not configured" : String) ≠ ""
      decide
    · rw [if_neg hb]
      show ("Cannot connect to Firebase Storage" : String) ≠ ""
      decide
  | exn m =>
    simp only [upload_to_storage] at h ⊢
    by_cases hb : cfg.storageBucket = ""
    · rw [if_pos hb]
      show ("Storage bucket not configured" : String) ≠ ""
      decide
    · rw [if_neg hb]
      show ("Storage upload error: " ++ m) ≠ ""
      exact str_append_ne_empty _ _ (by decide)

theorem create_component_err_ne (cfg : FirebaseConfig) (cid : String)
    (o : HttpOutcome)
    (h : (create_component cfg cid o).1 = false) :
    (create_component cfg cid o).2 ≠ "" := by
  cases o with
  | status code body =>
    simp only [create_component] at h ⊢
    by_cases hd : cfg.databaseURL = "" ∨ cfg.spaceId = ""
    · rw [if_pos hd]
      show ("Database URL or space ID not configured" : String) ≠ ""
      decide
    · rw [if_neg hd] at h ⊢
      by_cases hc : code = 200
      · rw [if_pos hc] at h
        simp at h
      · rw [if_neg hc] at h ⊢
        cases body with
        | some m =>
          show ("Failed to create component: " ++ m) ≠ ""
          exact str_append_ne_empty _ _ (by decide)
        | none =>
          show ("Failed to create component: HTTP " ++ Nat.repr code) ≠ ""
          exact str_append_ne_empty _ _ (by decide)
  | timeout =>
    simp only [create_component] at h ⊢
    by_cases hd : cfg.databaseURL = "" ∨ cfg.spaceId = ""
    · rw [if_pos hd]
      show ("Database URL or space ID not configured" : String) ≠ ""
      decide
    · rw [if_neg hd]
      show ("Component creation error: Timeout" : String) ≠ ""
      decide
  | connError =>
    simp only [create_component] at h ⊢
    by_cases hd : cfg.databaseURL = "" ∨ cfg.spaceId = ""
    · rw [if_pos hd]
      show ("Database URL or space ID not configured" : String) ≠ ""
      decide
    · rw [if_neg hd]
      show ("Component creation error: ConnectionError" : String) ≠ ""
      decide
  | exn m =>
    simp only [create_component] at h ⊢
    by_cases hd : cfg.databaseURL = "" ∨ cfg.spaceId = ""
    · rw [if_pos hd]
      show ("Database URL or space ID not configured" : String) ≠ ""
      decide
    · rw [if_neg hd]
      show ("Component creation error: " ++ m) ≠ ""
      exact str_append_ne_empty _ _ (by decide)

theorem create_entity_err_ne (cfg : FirebaseConfig) (name cid : String)
    (tr : Option Transform) (uuid : Nat) (o : HttpOutcome)
    (h : (create_entity cfg name cid tr uuid o).1 = false) :
    (create_entity cfg name cid tr uuid o).2 ≠ "" := by
  cases o with
  | status code body =>
    simp only [create_entity] at h ⊢
    by_cases hd : cfg.databaseURL = "" ∨ cfg.spaceId = ""
    · rw [if_pos hd]
      show ("Database URL or space ID not configured" : String) ≠ ""
      decide
    · rw [if_neg hd] at h ⊢
      by_cases hc : code = 200
      · rw [if_pos hc] at h
        simp at h
      · rw [if_neg hc] at h ⊢
        cases body with
        | some m =>
          show ("Failed to create entity: " ++ m) ≠ ""
          exact str_append_ne_empty _ _ (by decide)
        | none =>
          show ("Failed to create entity: HTTP " ++ Nat.repr code) ≠ ""
          exact str_append_ne_empty _ _ (by decide)
  | timeout =>
    simp only [create_entity] at h ⊢
    by_cases hd : cfg.databaseURL = "" ∨ cfg.spaceId = ""
    · rw [if_pos hd]
      show ("Database URL or space ID not configured" : String) ≠ ""
      decide
    · rw [if_neg hd]
      show ("Entity creation error: Timeout" : String) ≠ ""
      decide
  | connError =>
    simp only [create_entity] at h ⊢
    by_cases hd : cfg.databaseURL = "" ∨ cfg.spaceId = ""
    · rw [if_pos hd]
      show ("Database URL or space ID not configured" : String) ≠ ""
      decide
    · rw [if_neg hd]
      show ("Entity creation error: ConnectionError" : String) ≠ ""
      decide
  | exn m =>
    simp only [create_entity] at h ⊢
    by_cases hd : cfg.databaseURL = "" ∨ cfg.spaceId = ""
    · rw [if_pos hd]
      show ("Database URL or space ID not configured" : String) ≠ ""
      decide
    · rw [if_neg hd]
      show ("Entity creation error: " ++ m) ≠ ""
      exact str_append_ne_empty _ _ (by decide)


theorem upload_from_wellformed (cfg : FirebaseConfig) (sha : List Nat → String)
    (data : List Nat) (name : String) (tr : Option Transform)
    (env : Nat → AttemptEnv) :
    ∀ (r a : Nat), reasonNonempty (upload_from cfg sha data name tr env a r).1 := by
  intro r
  induction r with
  | zero =>
    intro a
    rw [upload_from]
    show ("Maximum retries exceeded" : String) ≠ ""
    decide
  | succ r ih =>
    intro a
    rw [upload_from]
    by_cases hs1 : (upload_to_storage cfg sha data (env a).storage).1
    · simp only [hs1, if_true]
      by_cases h2 : (create_component cfg (componentIdOf (env a).rand) (env a).component).1
      · by_cases h3 : (create_entity cfg name (componentIdOf (env a).rand) tr
            (env a).uuid (env a).entity).1
        · simp only [h2, h3, if_true]
          trivial
        · simp only [h2, if_true, h3, Bool.false_eq_true, if_false]
          exact create_entity_err_ne cfg name (componentIdOf (env a).rand) tr
            (env a).uuid (env a).entity (Bool.not_eq_true _ |>.mp h3)
      · simp only [h2, Bool.false_eq_true, if_false]
        exact create_component_err_ne cfg (componentIdOf (env a).rand) (env a).component
          (Bool.not_eq_true _ |>.mp h2)
    · simp only [Bool.not_eq_true] at hs1
      simp only [hs1, Bool.false_eq_true, if_false]
      by_cases hr : r = 0
      · simp only [hr, if_pos rfl]
        exact upload_to_storage_err_ne cfg sha data (env a).storage hs1
      · simp only [if_neg hr]
        exact ih (a + 1)

theorem cacheLookup_insert (c : Cache) (key : String) (v : Bool) (t : Nat) :
    cacheLookup (cacheInsert c key v t) key = some (v, t) := by
  simp [cacheInsert, cacheLookup]

theorem cacheLookup_erase (c : Cache) (key : String) :
    cacheLookup (cacheErase c key) key = none := by
  induction c with
  | nil => rfl
  | cons p rest ih =>
    obtain ⟨k, r, t⟩ := p
    by_cases hk : k = key
    · simp [cacheErase, hk, ih]
    · simp [cacheErase, cacheLookup, hk, ih]

theorem get_firebase_status_entry (cache : Cache) (cfg : FirebaseConfig)
    (now : Nat) (o : HttpOutcome) :
    ∃ tp, cacheLookup (get_firebase_status cache cfg now o).2.1 (firebaseCacheKey cfg) =
      some ((get_firebase_status cache cfg now o).1, tp) := by
  unfold get_firebase_status
  rcases hl : cacheLookup cache (firebaseCacheKey cfg) with _ | ⟨r, t⟩
  · simp only [hl]
    unfold firebase_live_check
    by_cases hc : cfg.databaseURL = "" ∨ cfg.apiKey = ""
    · rw [if_pos hc]
      exact ⟨now, cacheLookup_insert _ _ _ _⟩
    · rw [if_neg hc]
      exact ⟨now, cacheLookup_insert _ _ _ _⟩
  · simp only [hl]
    by_cases hf : now - t < 10
    · rw [if_pos hf]
      exact ⟨t, hl⟩
    · rw [if_neg hf]
      unfold firebase_live_check
      by_cases hc : cfg.databaseURL = "" ∨ cfg.apiKey = ""
      · rw [if_pos hc]
        exact ⟨now, cacheLookup_insert _ _ _ _⟩
      · rw [if_neg hc]
        exact ⟨now, cacheLookup_insert _ _ _ _⟩


/-! ### Claim theorems -/

/-- C1: for every payload and every retry count N at least 1, if the binary
store fails with a transport error on every attempt, upload_with_retry
performs exactly N attempts at step 1, never attempts step 2 or step 3, and
returns Failure carrying the storage error of the last attempt, which is the
rendering of the last transport error. -/
theorem upload_with_retry_transport_exhaustion (cfg : FirebaseConfig)
    (sha : List Nat → String) (data : List Nat) (name : String)
    (tr : Option Transform) (env : Nat → AttemptEnv) (n : Nat)
    (hb : cfg.storageBucket ≠ "") (hn : 1 ≤ n)
    (hfail : ∀ i, i < n →
      (env i).storage = HttpOutcome.timeout ∨ (env i).storage = HttpOutcome.connError) :
    upload_with_retry cfg sha data name tr env (n : Int) =
      (UploadResult.failure (upload_to_storage cfg sha data (env (n - 1)).storage).2.1,
       ⟨n, 0, 0, (List.range (n - 1)).map (fun j => 2 ^ j)⟩) ∧
    ((env (n - 1)).storage = HttpOutcome.timeout →
      (upload_to_storage cfg sha data (env (n - 1)).storage).2.1 =
        "Storage upload timeout") ∧
    ((env (n - 1)).storage = HttpOutcome.connError →
      (upload_to_storage cfg sha data (env (n - 1)).storage).2.1 =
        "Cannot connect to Firebase Storage") := by
  refine ⟨?_, ?_, ?_⟩
  · unfold upload_with_retry
    have htn : ((n : Int)).toNat = n := by omega
    rw [htn]
    have hmain := upload_from_all_fail cfg sha data name tr env n 0 hn ?hf
    case hf =>
      intro i hi
      refine upload_to_storage_of_transport cfg sha data (env (0 + i)).storage hb ?_
      have h0 : 0 + i = i := by omega
      rw [h0]
      exact hfail i hi
    rw [hmain]
    have h0 : 0 + (n - 1) = n - 1 := by omega
    rw [h0]
    refine Prod.ext rfl ?_
    simp only [Trace.mk.injEq]
    refine ⟨trivial, trivial, trivial, ?_⟩
    apply List.map_congr_left
    intro j _
    show 2 ^ (0 + j) = 2 ^ j
    congr 1
    omega
  · intro he
    rw [he]
    simp [upload_to_storage, hb]
  · intro he
    rw [he]
    simp [upload_to_storage, hb]

/-- Witness for C1: with the environment where every storage attempt times
out and two retries allowed, both attempts run, no metadata write happens,
and the result carries the timeout error of the last attempt. -/
theorem upload_with_retry_transport_exhaustion_witness :
    (sampleConfig.storageBucket ≠ "" ∧ (1 : Nat) ≤ 2 ∧
      (∀ i, i < 2 → (transportAllEnv i).storage = HttpOutcome.timeout ∨
        (transportAllEnv i).storage = HttpOutcome.connError)) ∧
    (upload_with_retry sampleConfig sampleSha [1, 2, 3] "mesh" none transportAllEnv
        ((2 : Nat) : Int) =
      (UploadResult.failure
        (upload_to_storage sampleConfig sampleSha [1, 2, 3] (transportAllEnv (2 - 1)).storage).2.1,
       ⟨2, 0, 0, (List.range (2 - 1)).map (fun j => 2 ^ j)⟩)) :=
  ⟨⟨by decide, by decide, by decide⟩,
    (upload_with_retry_transport_exhaustion sampleConfig sampleSha [1, 2, 3] "mesh"
      none transportAllEnv 2 (by decide) (by decide) (by decide)).1⟩


/-- C2 counterexample: a run in which the storage upload succeeds on the
very first attempt (k equal to 1, max_retries equal to 3) but the component
write is rejected with HTTP 403; the call returns immediately and the entity
write is attempted zero times, not exactly once as the claim states. -/
theorem upload_steps_once_counterexample :
    (upload_to_storage sampleConfig sampleSha [1, 2, 3] (componentRejectEnv 0).storage).1
        = true ∧
    (upload_with_retry sampleConfig sampleSha [1, 2, 3] "mesh" none
        componentRejectEnv 3).2.componentAttempts = 1 ∧
    (upload_with_retry sampleConfig sampleSha [1, 2, 3] "mesh" none
        componentRejectEnv 3).2.entityAttempts = 0 ∧
    (0 : Nat) ≠ 1 := by
  refine ⟨by decide, by decide, by decide, by decide⟩

/-- C2 amended: if step 1 first succeeds on attempt k with k at most
max_retries, then step 2 is attempted exactly once; step 3 is attempted
exactly once when the step 2 write succeeds and not at all when it fails;
neither step is repeated on any later loop iteration, regardless of k. -/
theorem upload_with_retry_steps_once (cfg : FirebaseConfig)
    (sha : List Nat → String) (data : List Nat) (name : String)
    (tr : Option Transform) (env : Nat → AttemptEnv) (n k : Nat)
    (hk : 1 ≤ k) (hkn : k ≤ n)
    (hfail : ∀ i, i < k - 1 →
      (upload_to_storage cfg sha data (env i).storage).1 = false)
    (hok : (upload_to_storage cfg sha data (env (k - 1)).storage).1 = true) :
    (upload_with_retry cfg sha data name tr env (n : Int)).2.storageAttempts = k ∧
    (upload_with_retry cfg sha data name tr env (n : Int)).2.componentAttempts = 1 ∧
    (upload_with_retry cfg sha data name tr env (n : Int)).2.entityAttempts =
      (if (create_component cfg (componentIdOf (env (k - 1)).rand)
            (env (k - 1)).component).1 then 1 else 0) := by
  unfold upload_with_retry
  have htn : ((n : Int)).toNat = n := by omega
  rw [htn]
  have hmain := upload_from_success_at cfg sha data name tr env k 0 n hk hkn ?hf ?hs
  case hf =>
    intro i hi
    have h0 : 0 + i = i := by omega
    rw [h0]
    exact hfail i hi
  case hs =>
    have h0 : 0 + (k - 1) = k - 1 := by omega
    rw [h0]
    exact hok
  rw [hmain]
  have h0 : 0 + (k - 1) = k - 1 := by omega
  rw [h0]
  exact ⟨rfl, rfl, rfl⟩

/-- Witness for the amended C2, which is also the scenario of the spec:
storage fails on attempts 1 and 2 with a transport error, succeeds on
attempt 3 of 3, and the call performs exactly one component write and
exactly one entity write. -/
theorem upload_with_retry_steps_once_witness :
    ((1 : Nat) ≤ 3 ∧ (3 : Nat) ≤ 3 ∧
      (∀ i, i < 3 - 1 →
        (upload_to_storage sampleConfig sampleSha [1, 2, 3] (failTwiceEnv i).storage).1 = false) ∧
      (upload_to_storage sampleConfig sampleSha [1, 2, 3] (failTwiceEnv (3 - 1)).storage).1 = true) ∧
    ((upload_with_retry sampleConfig sampleSha [1, 2, 3] "mesh" none failTwiceEnv
        ((3 : Nat) : Int)).2.storageAttempts = 3 ∧
     (upload_with_retry sampleConfig sampleSha [1, 2, 3] "mesh" none failTwiceEnv
        ((3 : Nat) : Int)).2.componentAttempts = 1 ∧
     (upload_with_retry sampleConfig sampleSha [1, 2, 3] "mesh" none failTwiceEnv
        ((3 : Nat) : Int)).2.entityAttempts =
       (if (create_component sampleConfig (componentIdOf (failTwiceEnv (3 - 1)).rand)
             (failTwiceEnv (3 - 1)).component).1 then 1 else 0)) :=
  ⟨⟨by decide, by decide, by decide, by decide⟩,
    upload_with_retry_steps_once sampleConfig sampleSha [1, 2, 3] "mesh" none
      failTwiceEnv 3 3 (by decide) (by decide) (by decide) (by decide)⟩

/-- C3 counterexample: in the run where every storage attempt times out with
max_retries equal to 3, the delay slept before retry attempt 2 (the first
recorded sleep) is 2 to the power 0, that is 1 time unit, not 2 to the power
(2 - 1) as the claim states. -/
theorem backoff_delay_counterexample :
    ((upload_with_retry sampleConfig sampleSha [1, 2, 3] "mesh" none
        transportAllEnv 3).2.sleeps).get? 0 = some 1 ∧
    (1 : Nat) ≠ 2 ^ (2 - 1) := by
  refine ⟨by decide, by decide⟩

/-- C3 amended: the k-th backoff recorded by a call (k counted from 0, slept
before 1-based retry attempt k + 2) is exactly 2 to the power k, that is 2
to the power (i - 2) before attempt i, and the recorded delays are
monotonically non-decreasing in the attempt index. -/
theorem upload_backoff_delays (cfg : FirebaseConfig) (sha : List Nat → String)
    (data : List Nat) (name : String) (tr : Option Transform)
    (env : Nat → AttemptEnv) (mr : Int) (k d : Nat)
    (h : ((upload_with_retry cfg sha data name tr env mr).2.sleeps).get? k = some d) :
    d = 2 ^ k ∧
    (∀ j e, ((upload_with_retry cfg sha data name tr env mr).2.sleeps).get? j = some e →
      j ≤ k → e ≤ d) := by
  have hd : d = 2 ^ (0 + k) :=
    upload_from_sleeps cfg sha data name tr env mr.toNat 0 k d h
  have hd0 : d = 2 ^ k := by
    rw [hd]
    congr 1
    omega
  refine ⟨hd0, ?_⟩
  intro j e hj hjk
  have he : e = 2 ^ (0 + j) :=
    upload_from_sleeps cfg sha data name tr env mr.toNat 0 j e hj
  have he0 : e = 2 ^ j := by
    rw [he]
    congr 1
    omega
  rw [he0, hd0]
  exact Nat.pow_le_pow_right (by omega) hjk

/-- Witness for the amended C3: in the all-timeout run with three attempts,
the delay recorded before attempt 3 is 2 to the power 1, and every earlier
delay is at most that. -/
theorem upload_backoff_delays_witness :
    ((upload_with_retry sampleConfig sampleSha [1, 2, 3] "mesh" none
        transportAllEnv 3).2.sleeps).get? 1 = some 2 ∧
    ((2 : Nat) = 2 ^ 1 ∧
      (∀ j e, ((upload_with_retry sampleConfig sampleSha [1, 2, 3] "mesh" none
          transportAllEnv 3).2.sleeps).get? j = some e → j ≤ 1 → e ≤ 2)) :=
  ⟨by decide,
    upload_backoff_delays sampleConfig sampleSha [1, 2, 3] "mesh" none
      transportAllEnv 3 1 2 (by decide)⟩


theorem firebase_live_check_probes_le_one (cache : Cache) (cfg : FirebaseConfig)
    (key : String) (now : Nat) (o : HttpOutcome) :
    (firebase_live_check cache cfg key now o).2.2 ≤ 1 := by
  unfold firebase_live_check
  by_cases hc : cfg.databaseURL = "" ∨ cfg.apiKey = ""
  · rw [if_pos hc]
    show (0 : Nat) ≤ 1
    decide
  · rw [if_neg hc]

theorem get_firebase_status_probes_le_one (cache : Cache) (cfg : FirebaseConfig)
    (now : Nat) (o : HttpOutcome) :
    (get_firebase_status cache cfg now o).2.2 ≤ 1 := by
  unfold get_firebase_status
  rcases hl : cacheLookup cache (firebaseCacheKey cfg) with _ | ⟨r, t⟩
  · simp only [hl]
    exact firebase_live_check_probes_le_one cache cfg (firebaseCacheKey cfg) now o
  · simp only [hl]
    by_cases hf : now - t < 10
    · rw [if_pos hf]
      show (0 : Nat) ≤ 1
      decide
    · rw [if_neg hf]
      exact firebase_live_check_probes_le_one cache cfg (firebaseCacheKey cfg) now o


/-- C4: after a first get_firebase_status call that leaves the entry
(r1, tp) in the cache, a second call strictly inside the 10 unit freshness
window returns the cached value with no live probe and an unchanged cache,
so the pair of calls performs at most one probe; a second call at or past
the end of the window performs exactly one new live probe and overwrites
the cached entry with the fresh result and timestamp. -/
theorem availability_cache_freshness (cache : Cache) (cfg : FirebaseConfig)
    (t1 t2 : Nat) (o1 o2 : HttpOutcome) (r1 : Bool) (s1 : Cache) (p1 tp : Nat)
    (hcfg : cfg.databaseURL ≠ "" ∧ cfg.apiKey ≠ "")
    (h1 : get_firebase_status cache cfg t1 o1 = (r1, s1, p1))
    (h2 : cacheLookup s1 (firebaseCacheKey cfg) = some (r1, tp)) :
    p1 ≤ 1 ∧
    (t2 - tp < 10 → get_firebase_status s1 cfg t2 o2 = (r1, s1, 0)) ∧
    (¬ t2 - tp < 10 → get_firebase_status s1 cfg t2 o2 =
      ((test_connection cfg o2).1,
       cacheInsert s1 (firebaseCacheKey cfg) (test_connection cfg o2).1 t2, 1)) := by
  have hcond : ¬ (cfg.databaseURL = "" ∨ cfg.apiKey = "") := by
    intro hc
    rcases hc with hc | hc
    · exact hcfg.1 hc
    · exact hcfg.2 hc
  refine ⟨?_, ?_, ?_⟩
  · have := get_firebase_status_probes_le_one cache cfg t1 o1
    rw [h1] at this
    exact this
  · intro hf
    unfold get_firebase_status
    simp only [h2]
    rw [if_pos hf]
  · intro hf
    unfold get_firebase_status
    simp only [h2]
    rw [if_neg hf]
    unfold firebase_live_check
    rw [if_neg hcond]

/-- Witness for C4: starting from an empty cache, the first call at time 0
probes once and caches the reachable result; a second call at time 5 is
inside the window, a second call at time 10 is outside it. -/
theorem availability_cache_freshness_witness :
    ((sampleConfig.databaseURL ≠ "" ∧ sampleConfig.apiKey ≠ "") ∧
      get_firebase_status [] sampleConfig 0 okOutcome =
        (true, [(firebaseCacheKey sampleConfig, true, 0)], 1) ∧
      cacheLookup [(firebaseCacheKey sampleConfig, true, 0)] (firebaseCacheKey sampleConfig) =
        some (true, 0)) ∧
    ((1 : Nat) ≤ 1 ∧
      ((5 : Nat) - 0 < 10 →
        get_firebase_status [(firebaseCacheKey sampleConfig, true, 0)] sampleConfig 5 okOutcome =
          (true, [(firebaseCacheKey sampleConfig, true, 0)], 0)) ∧
      (¬ (10 : Nat) - 0 < 10 →
        get_firebase_status [(firebaseCacheKey sampleConfig, true, 0)] sampleConfig 10 okOutcome =
          ((test_connection sampleConfig okOutcome).1,
           cacheInsert [(firebaseCacheKey sampleConfig, true, 0)] (firebaseCacheKey sampleConfig)
             (test_connection sampleConfig okOutcome).1 10, 1))) := by
  refine ⟨⟨⟨by decide, by decide⟩, by decide, by decide⟩, ?_⟩
  have h5 := availability_cache_freshness [] sampleConfig 0 5 okOutcome okOutcome
    true [(firebaseCacheKey sampleConfig, true, 0)] 1 0
    ⟨by decide, by decide⟩ (by decide) (by decide)
  have h10 := availability_cache_freshness [] sampleConfig 0 10 okOutcome okOutcome
    true [(firebaseCacheKey sampleConfig, true, 0)] 1 0
    ⟨by decide, by decide⟩ (by decide) (by decide)
  exact ⟨h5.1, h5.2.1, h10.2.2⟩

/-- C5: deleting the cache entry as the manual refresh operator does forces
the immediately following get_firebase_status call to miss the cache and
perform a live probe, no matter how fresh the removed entry was; the call
reports exactly the live probe result. -/
theorem invalidate_forces_probe (cache : Cache) (cfg : FirebaseConfig)
    (now : Nat) (o : HttpOutcome)
    (hcfg : cfg.databaseURL ≠ "" ∧ cfg.apiKey ≠ "") :
    cacheLookup (refresh_firebase_status cache cfg) (firebaseCacheKey cfg) = none ∧
    (get_firebase_status (refresh_firebase_status cache cfg) cfg now o).2.2 = 1 ∧
    (get_firebase_status (refresh_firebase_status cache cfg) cfg now o).1 =
      (test_connection cfg o).1 := by
  have hcond : ¬ (cfg.databaseURL = "" ∨ cfg.apiKey = "") := by
    intro hc
    rcases hc with hc | hc
    · exact hcfg.1 hc
    · exact hcfg.2 hc
  have hnone : cacheLookup (refresh_firebase_status cache cfg) (firebaseCacheKey cfg) = none :=
    cacheLookup_erase cache (firebaseCacheKey cfg)
  refine ⟨hnone, ?_, ?_⟩ <;>
    · unfold get_firebase_status
      simp only [hnone]
      unfold firebase_live_check
      rw [if_neg hcond]

/-- Witness for C5: invalidating a cache whose entry was checked at the very
same instant (maximally fresh) still leads to a live probe on the next call. -/
theorem invalidate_forces_probe_witness :
    (sampleConfig.databaseURL ≠ "" ∧ sampleConfig.apiKey ≠ "") ∧
    (cacheLookup (refresh_firebase_status [(firebaseCacheKey sampleConfig, true, 5)] sampleConfig)
        (firebaseCacheKey sampleConfig) = none ∧
      (get_firebase_status (refresh_firebase_status
          [(firebaseCacheKey sampleConfig, true, 5)] sampleConfig) sampleConfig 5 okOutcome).2.2 = 1 ∧
      (get_firebase_status (refresh_firebase_status
          [(firebaseCacheKey sampleConfig, true, 5)] sampleConfig) sampleConfig 5 okOutcome).1 =
        (test_connection sampleConfig okOutcome).1) :=
  ⟨⟨by decide, by decide⟩,
    invalidate_forces_probe [(firebaseCacheKey sampleConfig, true, 5)] sampleConfig 5
      okOutcome ⟨by decide, by decide⟩⟩


/-- C6 counterexample: the Firebase availability probe test_connection,
called with a complete configuration and an HTTP 404 response, reports the
backend as not reachable although 404 is below 500 (for contrast, the
Banter probe check_server_status does report reachable on 404). -/
theorem probe_reachability_counterexample :
    (404 : Nat) < 500 ∧
    (test_connection sampleConfig (HttpOutcome.status 404 none)).1 = false ∧
    check_server_status (HttpOutcome.status 404 none) = true := by
  refine ⟨by decide, by decide, by decide⟩

/-- C6 amended: the Banter probe check_server_status reports reachable
exactly for status codes below 500 and reports unreachable on any raised
error, while the Firebase probe test_connection reports reachable exactly
for status code 200 (any other code, including codes below 500, and any
transport error report unreachable). -/
theorem probe_reachability_classification :
    (∀ code b, check_server_status (HttpOutcome.status code b) = decide (code < 500)) ∧
    check_server_status HttpOutcome.timeout = false ∧
    check_server_status HttpOutcome.connError = false ∧
    (∀ m, check_server_status (HttpOutcome.exn m) = false) ∧
    (∀ (cfg : FirebaseConfig) (o : HttpOutcome),
      cfg.databaseURL ≠ "" → cfg.apiKey ≠ "" →
      ((test_connection cfg o).1 = true ↔ ∃ b, o = HttpOutcome.status 200 b)) := by
  refine ⟨fun code b => rfl, rfl, rfl, fun m => rfl, ?_⟩
  intro cfg o h1 h2
  have hcond : ¬ (cfg.databaseURL = "" ∨ cfg.apiKey = "") := by
    intro hc
    rcases hc with hc | hc
    · exact h1 hc
    · exact h2 hc
  constructor
  · intro h
    cases o with
    | status code body =>
      simp only [test_connection] at h
      rw [if_neg hcond] at h
      by_cases hc : code = 200
      · exact ⟨body, by rw [hc]⟩
      · exfalso
        rw [if_neg hc] at h
        by_cases hc4 : code = 401
        · rw [if_pos hc4] at h
          simp at h
        · rw [if_neg hc4] at h
          simp at h
    | timeout => simp [test_connection, hcond] at h
    | connError => simp [test_connection, hcond] at h
    | exn m => simp [test_connection, hcond] at h
  · rintro ⟨b, rfl⟩
    unfold test_connection
    rw [if_neg hcond]
    rfl

/-- Witness for the amended C6: with the complete sample configuration, a
200 response makes test_connection report reachable. -/
theorem probe_reachability_classification_witness :
    sampleConfig.databaseURL ≠ "" ∧ sampleConfig.apiKey ≠ "" ∧
    ((test_connection sampleConfig okOutcome).1 = true ↔
      ∃ b, okOutcome = HttpOutcome.status 200 b) :=
  ⟨by decide, by decide,
    probe_reachability_classification.2.2.2.2 sampleConfig okOutcome
      (by decide) (by decide)⟩

/-- C7: for every input and every behaviour of the backend calls, the
embedded upload_with_retry is a total function into the result type, so
exactly one Success or Failure dictionary is produced per call and no
exception escapes; moreover every Failure carries a nonempty human-readable
reason string. -/
theorem upload_with_retry_total_result (cfg : FirebaseConfig)
    (sha : List Nat → String) (data : List Nat) (name : String)
    (tr : Option Transform) (env : Nat → AttemptEnv) (mr : Int) :
    reasonNonempty (upload_with_retry cfg sha data name tr env mr).1 :=
  upload_from_wellformed cfg sha data name tr env mr.toNat 0

/-- C8: a payload strictly larger than the 40 MB ceiling is rejected by the
export operator before the Firebase client is invoked: the call is
cancelled with the size error and the trace shows zero storage, component
and entity attempts and no sleeps. -/
theorem oversized_payload_rejected (cfg : FirebaseConfig)
    (sha : List Nat → String) (data : List Nat) (name : String)
    (tr : Option Transform) (env : Nat → AttemptEnv) (mr : Int)
    (h : MAX_FILE_SIZE_MB * 1024 * 1024 < data.length) :
    execute_export_upload cfg sha data name tr env mr =
      (ExecOutcome.cancelled "File too large, maximum is 40MB", emptyTrace) := by
  unfold execute_export_upload
  rw [if_pos h]

/-- Witness for C8: a payload of 41943041 bytes, one byte over the 40 MB
ceiling, is rejected with no backend write attempted. -/
theorem oversized_payload_rejected_witness :
    MAX_FILE_SIZE_MB * 1024 * 1024 < (List.replicate 41943041 (0 : Nat)).length ∧
    execute_export_upload sampleConfig sampleSha (List.replicate 41943041 (0 : Nat))
        "mesh" none happyEnv 3 =
      (ExecOutcome.cancelled "File too large, maximum is 40MB", emptyTrace) :=
  ⟨by norm_num [MAX_FILE_SIZE_MB, List.length_replicate],
    oversized_payload_rejected sampleConfig sampleSha _ "mesh" none happyEnv 3
      (by norm_num [MAX_FILE_SIZE_MB, List.length_replicate])⟩

/-- C9 counterexample: two successful uploads of the identical payload for
which the random oracle happens to repeat the draw 7 return the same
storage url, as the claim says, but also the same component identifier
GLTF_7, so the identifiers are not always distinct: distinctness depends on
the random draws, which the code does not force to differ. -/
theorem duplicate_upload_ids_counterexample :
    ∃ u c, (upload_with_retry sampleConfig sampleSha [1, 2, 3] "mesh" none
        happyEnv 3).1 = UploadResult.success u c "mesh" ∧
      (upload_with_retry sampleConfig sampleSha [1, 2, 3] "other" none
        happyEnv 3).1 = UploadResult.success u c "other" :=
  ⟨_, _, rfl, rfl⟩

/-- C9 amended: across any two successful calls on the same payload, the
stored location is content addressed, so the storage urls coincide; the
component identifiers are minted from the per-attempt random draws and are
distinct whenever the draws of the two calls are distinct (they coincide
when the draws repeat). -/
theorem upload_dedup_and_fresh_ids (cfg : FirebaseConfig)
    (sha : List Nat → String) (data : List Nat) (name1 name2 : String)
    (tr1 tr2 : Option Transform) (env1 env2 : Nat → AttemptEnv) (mr1 mr2 : Int)
    (u1 c1 n1 u2 c2 n2 : String)
    (h1 : (upload_with_retry cfg sha data name1 tr1 env1 mr1).1 =
      UploadResult.success u1 c1 n1)
    (h2 : (upload_with_retry cfg sha data name2 tr2 env2 mr2).1 =
      UploadResult.success u2 c2 n2)
    (hr : ∀ i j, (env1 i).rand ≠ (env2 j).rand) :
    u1 = u2 ∧ c1 ≠ c2 := by
  obtain ⟨hu1, _, i1, hc1⟩ :=
    upload_from_success_shape cfg sha data name1 tr1 env1 mr1.toNat 0 u1 c1 n1 h1
  obtain ⟨hu2, _, i2, hc2⟩ :=
    upload_from_success_shape cfg sha data name2 tr2 env2 mr2.toNat 0 u2 c2 n2 h2
  refine ⟨hu1.trans hu2.symm, ?_⟩
  intro hcc
  rw [hc1, hc2] at hcc
  exact hr i1 i2 (componentIdOf_inj _ _ hcc)

/-- Witness for the amended C9: a run drawing 7 and a run drawing 9 on the
same payload succeed with the same storage url and distinct component ids. -/
theorem upload_dedup_and_fresh_ids_witness :
    ∃ u1 c1 u2 c2,
      (upload_with_retry sampleConfig sampleSha [1, 2, 3] "mesh" none
        happyEnv 3).1 = UploadResult.success u1 c1 "mesh" ∧
      (upload_with_retry sampleConfig sampleSha [1, 2, 3] "mesh" none
        happyEnvAlt 3).1 = UploadResult.success u2 c2 "mesh" ∧
      (∀ i j, (happyEnv i).rand ≠ (happyEnvAlt j).rand) ∧
      (u1 = u2 ∧ c1 ≠ c2) :=
  ⟨_, _, _, _, rfl, rfl, fun i j => by show (7 : Nat) ≠ 9; decide,
    upload_dedup_and_fresh_ids sampleConfig sampleSha [1, 2, 3] "mesh" "mesh"
      none none happyEnv happyEnvAlt 3 3 _ _ "mesh" _ _ "mesh" rfl rfl
      (fun i j => by show (7 : Nat) ≠ 9; decide)⟩

/-- C10: calling upload_with_retry with max_retries equal to zero or any
non-positive value never runs the loop body: the call returns the Failure
with reason Maximum retries exceeded and the trace records no storage
upload, no component write, no entity write and no sleep. -/
theorem upload_with_retry_nonpositive (cfg : FirebaseConfig)
    (sha : List Nat → String) (data : List Nat) (name : String)
    (tr : Option Transform) (env : Nat → AttemptEnv) (mr : Int) (h : mr ≤ 0) :
    upload_with_retry cfg sha data name tr env mr =
      (UploadResult.failure "Maximum retries exceeded", emptyTrace) := by
  unfold upload_with_retry
  have ht : mr.toNat = 0 := by omega
  rw [ht, upload_from]
  rfl

/-- Witness for C10: max_retries equal to 0 yields the terminal failure with
an empty trace. -/
theorem upload_with_retry_nonpositive_witness :
    (0 : Int) ≤ 0 ∧
    upload_with_retry sampleConfig sampleSha [1, 2, 3] "mesh" none happyEnv 0 =
      (UploadResult.failure "Maximum retries exceeded", emptyTrace) :=
  ⟨by decide,
    upload_with_retry_nonpositive sampleConfig sampleSha [1, 2, 3] "mesh" none
      happyEnv 0 (by decide)⟩

end TippyBlenderLink
